import Mathlib

/-!
Verification of the Windows (XInput) backend of the gilrs gamepad library,
file src/platform/windows/gamepad.rs.  The Rust code is shallowly embedded:
machine integers become Nat or Int with explicit wrapping where the source
can overflow, the worker thread tick becomes a pure state-transition
function, the mpsc channels become explicit input lists and output lists,
and the f32 axis normalization is carried out over the rationals (the exact
value raw/max; the real-valued claims settled here are robust to f32
rounding, which is at least four orders of magnitude finer than the margins
involved).  A Rust panic (unimplemented, index fault) is made explicit as a
distinguished result constructor.
-/

/- Constants, gamepad.rs lines 33 and 34. -/

def EVENT_THREAD_SLEEP_TIME : ℕ := 10

def ITERATIONS_TO_CHECK_IF_CONNECTED : ℕ := 100

/- Numeric limits used by the source (std u32, i16, u8 MAX imports, lines 19 to 21). -/

def U32_MAX : ℕ := 4294967295

def I16_MAX : ℤ := 32767

def U8_MAX : ℕ := 255

/- Button bit masks from the winapi xinput bindings (external crate; the
standard XINPUT_GAMEPAD_* wButtons bit assignments). -/

def XINPUT_GAMEPAD_DPAD_UP : ℕ := 1

def XINPUT_GAMEPAD_DPAD_DOWN : ℕ := 2

def XINPUT_GAMEPAD_DPAD_LEFT : ℕ := 4

def XINPUT_GAMEPAD_DPAD_RIGHT : ℕ := 8

def XINPUT_GAMEPAD_START : ℕ := 16

def XINPUT_GAMEPAD_BACK : ℕ := 32

def XINPUT_GAMEPAD_LEFT_THUMB : ℕ := 64

def XINPUT_GAMEPAD_RIGHT_THUMB : ℕ := 128

def XINPUT_GAMEPAD_LEFT_SHOULDER : ℕ := 256

def XINPUT_GAMEPAD_RIGHT_SHOULDER : ℕ := 512

def XINPUT_GAMEPAD_A : ℕ := 4096

def XINPUT_GAMEPAD_B : ℕ := 8192

def XINPUT_GAMEPAD_X : ℕ := 16384

def XINPUT_GAMEPAD_Y : ℕ := 32768

/-- Raw XInput gamepad snapshot XINPUT_GAMEPAD (winapi).  wButtons is a u16
bitmask, the triggers are u8, the stick axes are i16. -/
structure XGamepad where
  wButtons : ℕ
  bLeftTrigger : ℕ
  bRightTrigger : ℕ
  sThumbLX : ℤ
  sThumbLY : ℤ
  sThumbRX : ℤ
  sThumbRY : ℤ
deriving DecidableEq

/-- Raw XInput state XINPUT_STATE (winapi): packet sequence number plus the
gamepad snapshot. -/
structure XState where
  dwPacketNumber : ℕ
  Gamepad : XGamepad
deriving DecidableEq

/-- The mem zeroed XGamepad used to initialize prev_state and state
(gamepad.rs lines 88 and 89). -/
def XGamepad.zeroed : XGamepad := ⟨0, 0, 0, 0, 0, 0, 0⟩

/-- The mem zeroed XINPUT_STATE (gamepad.rs lines 88 and 89). -/
def XState.zeroed : XState := ⟨0, XGamepad.zeroed⟩

/-- Logical axes used by compare_state (the gamepad module of gilrs is not
under src; only the constructors this file uses are modelled). -/
inductive Axis where
  | LeftStickX
  | LeftStickY
  | RightStickX
  | RightStickY
  | LeftTrigger2
  | RightTrigger2
deriving DecidableEq

/-- Logical buttons used by compare_state (the gamepad module of gilrs is
not under src; only the constructors this file uses are modelled). -/
inductive Button where
  | DPadUp
  | DPadDown
  | DPadLeft
  | DPadRight
  | Start
  | Select
  | LeftThumb
  | RightThumb
  | LeftTrigger
  | RightTrigger
  | South
  | East
  | West
  | North
deriving DecidableEq

/-- Events emitted to the application (gamepad module of gilrs; the variants
used in this file).  Axis values are modelled in the rationals, standing for
the exact quotient the source computes in f32. -/
inductive Event where
  | Connected
  | Disconnected
  | ButtonPressed (b : Button) (code : ℕ)
  | ButtonReleased (b : Button) (code : ℕ)
  | AxisChanged (a : Axis) (value : ℚ) (code : ℕ)
deriving DecidableEq

/-- Translation of is_mask_eq (gamepad.rs lines 481 to 484). -/
def is_mask_eq (l r mask : ℕ) : Bool :=
  ((l &&& mask) != 0) == ((r &&& mask) != 0)

/-- Keep the payload of each table row whose condition holds, in order.
This realizes the shape of compare_state in the source: a fixed sequence of
guarded sends. -/
def emit {α : Type} : List (Bool × α) → List α
  | [] => []
  | (c, x) :: rest => (if c then [x] else []) ++ emit rest

/-- The guarded-send table of Gilrs compare_state (gamepad.rs lines 221 to
386), one row per if-block of the source in program order: the condition
under which the block sends, and the event it sends.  For a button block
the event is ButtonPressed when the bit is now set, ButtonReleased when
cleared (the match inside each block). -/
def diff_segments (id : ℕ) (g pg : XGamepad) : List (Bool × (ℕ × Event)) :=
  [    (g.bLeftTrigger != pg.bLeftTrigger,
      (id, Event.AxisChanged Axis.LeftTrigger2 ((g.bLeftTrigger : ℚ) / (U8_MAX : ℚ)) 4)),
    (g.bRightTrigger != pg.bRightTrigger,
      (id, Event.AxisChanged Axis.RightTrigger2 ((g.bRightTrigger : ℚ) / (U8_MAX : ℚ)) 5)),
    (g.sThumbLX != pg.sThumbLX,
      (id, Event.AxisChanged Axis.LeftStickX ((g.sThumbLX : ℚ) / (I16_MAX : ℚ)) 0)),
    (g.sThumbLY != pg.sThumbLY,
      (id, Event.AxisChanged Axis.LeftStickY ((g.sThumbLY : ℚ) / (I16_MAX : ℚ)) 1)),
    (g.sThumbRX != pg.sThumbRX,
      (id, Event.AxisChanged Axis.RightStickX ((g.sThumbRX : ℚ) / (I16_MAX : ℚ)) 2)),
    (g.sThumbRY != pg.sThumbRY,
      (id, Event.AxisChanged Axis.RightStickY ((g.sThumbRY : ℚ) / (I16_MAX : ℚ)) 3)),
    (!(is_mask_eq g.wButtons pg.wButtons XINPUT_GAMEPAD_DPAD_UP),
      (id, if g.wButtons &&& XINPUT_GAMEPAD_DPAD_UP != 0 then
        Event.ButtonPressed Button.DPadUp XINPUT_GAMEPAD_DPAD_UP
      else Event.ButtonReleased Button.DPadUp XINPUT_GAMEPAD_DPAD_UP)),
    (!(is_mask_eq g.wButtons pg.wButtons XINPUT_GAMEPAD_DPAD_DOWN),
      (id, if g.wButtons &&& XINPUT_GAMEPAD_DPAD_DOWN != 0 then
        Event.ButtonPressed Button.DPadDown XINPUT_GAMEPAD_DPAD_DOWN
      else Event.ButtonReleased Button.DPadDown XINPUT_GAMEPAD_DPAD_DOWN)),
    (!(is_mask_eq g.wButtons pg.wButtons XINPUT_GAMEPAD_DPAD_LEFT),
      (id, if g.wButtons &&& XINPUT_GAMEPAD_DPAD_LEFT != 0 then
        Event.ButtonPressed Button.DPadLeft XINPUT_GAMEPAD_DPAD_LEFT
      else Event.ButtonReleased Button.DPadLeft XINPUT_GAMEPAD_DPAD_LEFT)),
    (!(is_mask_eq g.wButtons pg.wButtons XINPUT_GAMEPAD_DPAD_RIGHT),
      (id, if g.wButtons &&& XINPUT_GAMEPAD_DPAD_RIGHT != 0 then
        Event.ButtonPressed Button.DPadRight XINPUT_GAMEPAD_DPAD_RIGHT
      else Event.ButtonReleased Button.DPadRight XINPUT_GAMEPAD_DPAD_RIGHT)),
    (!(is_mask_eq g.wButtons pg.wButtons XINPUT_GAMEPAD_START),
      (id, if g.wButtons &&& XINPUT_GAMEPAD_START != 0 then
        Event.ButtonPressed Button.Start XINPUT_GAMEPAD_START
      else Event.ButtonReleased Button.Start XINPUT_GAMEPAD_START)),
    (!(is_mask_eq g.wButtons pg.wButtons XINPUT_GAMEPAD_BACK),
      (id, if g.wButtons &&& XINPUT_GAMEPAD_BACK != 0 then
        Event.ButtonPressed Button.Select XINPUT_GAMEPAD_BACK
      else Event.ButtonReleased Button.Select XINPUT_GAMEPAD_BACK)),
    (!(is_mask_eq g.wButtons pg.wButtons XINPUT_GAMEPAD_LEFT_THUMB),
      (id, if g.wButtons &&& XINPUT_GAMEPAD_LEFT_THUMB != 0 then
        Event.ButtonPressed Button.LeftThumb XINPUT_GAMEPAD_LEFT_THUMB
      else Event.ButtonReleased Button.LeftThumb XINPUT_GAMEPAD_LEFT_THUMB)),
    (!(is_mask_eq g.wButtons pg.wButtons XINPUT_GAMEPAD_RIGHT_THUMB),
      (id, if g.wButtons &&& XINPUT_GAMEPAD_RIGHT_THUMB != 0 then
        Event.ButtonPressed Button.RightThumb XINPUT_GAMEPAD_RIGHT_THUMB
      else Event.ButtonReleased Button.RightThumb XINPUT_GAMEPAD_RIGHT_THUMB)),
    (!(is_mask_eq g.wButtons pg.wButtons XINPUT_GAMEPAD_LEFT_SHOULDER),
      (id, if g.wButtons &&& XINPUT_GAMEPAD_LEFT_SHOULDER != 0 then
        Event.ButtonPressed Button.LeftTrigger XINPUT_GAMEPAD_LEFT_SHOULDER
      else Event.ButtonReleased Button.LeftTrigger XINPUT_GAMEPAD_LEFT_SHOULDER)),
    (!(is_mask_eq g.wButtons pg.wButtons XINPUT_GAMEPAD_RIGHT_SHOULDER),
      (id, if g.wButtons &&& XINPUT_GAMEPAD_RIGHT_SHOULDER != 0 then
        Event.ButtonPressed Button.RightTrigger XINPUT_GAMEPAD_RIGHT_SHOULDER
      else Event.ButtonReleased Button.RightTrigger XINPUT_GAMEPAD_RIGHT_SHOULDER)),
    (!(is_mask_eq g.wButtons pg.wButtons XINPUT_GAMEPAD_A),
      (id, if g.wButtons &&& XINPUT_GAMEPAD_A != 0 then
        Event.ButtonPressed Button.South XINPUT_GAMEPAD_A
      else Event.ButtonReleased Button.South XINPUT_GAMEPAD_A)),
    (!(is_mask_eq g.wButtons pg.wButtons XINPUT_GAMEPAD_B),
      (id, if g.wButtons &&& XINPUT_GAMEPAD_B != 0 then
        Event.ButtonPressed Button.East XINPUT_GAMEPAD_B
      else Event.ButtonReleased Button.East XINPUT_GAMEPAD_B)),
    (!(is_mask_eq g.wButtons pg.wButtons XINPUT_GAMEPAD_X),
      (id, if g.wButtons &&& XINPUT_GAMEPAD_X != 0 then
        Event.ButtonPressed Button.West XINPUT_GAMEPAD_X
      else Event.ButtonReleased Button.West XINPUT_GAMEPAD_X)),
    (!(is_mask_eq g.wButtons pg.wButtons XINPUT_GAMEPAD_Y),
      (id, if g.wButtons &&& XINPUT_GAMEPAD_Y != 0 then
        Event.ButtonPressed Button.North XINPUT_GAMEPAD_Y
      else Event.ButtonReleased Button.North XINPUT_GAMEPAD_Y))]

/-- Translation of Gilrs compare_state (gamepad.rs lines 221 to 386): the
sequence of events sent through tx, in program order, for the diff of
current snapshot g against previous snapshot pg, for a given slot id. -/
def compare_state (id : ℕ) (g pg : XGamepad) : List (ℕ × Event) :=
  emit (diff_segments id g pg)

/-- Outcome of one XInputGetState call for a slot (gamepad.rs lines 152 to
167): ERROR_SUCCESS with the read state, ERROR_DEVICE_NOT_CONNECTED, or any
other error code. -/
inductive QueryResult where
  | Success (st : XState)
  | NotConnected
  | OtherError
deriving DecidableEq

/-- Accumulated state of the per-slot polling section of the worker loop
(gamepad.rs lines 149 to 169).  prev_state is the SINGLE shared previous
snapshot variable of the source (line 88); connected is the per-slot
connected flags array (line 90); events are the messages sent through tx in
order; queried records which slots had XInputGetState called on them this
tick. -/
structure PollResult where
  prev_state : XState
  connected : List Bool
  events : List (ℕ × Event)
  queried : List ℕ
deriving DecidableEq

/-- Body of the success and failure handling for one slot after
XInputGetState returned (gamepad.rs lines 153 to 167). -/
def poll_slot_query (q : QueryResult) (acc : PollResult) (id : ℕ) : PollResult :=
  match q with
  | QueryResult.Success st =>
    let acc2 :=
      if acc.connected.getD id false then acc
      else { acc with connected := acc.connected.set id true,
                      events := acc.events ++ [(id, Event.Connected)] }
    if st.dwPacketNumber != acc2.prev_state.dwPacketNumber then
      { acc2 with prev_state := st,
                  events := acc2.events ++ compare_state id st.Gamepad acc2.prev_state.Gamepad }
    else acc2
  | QueryResult.NotConnected =>
    if acc.connected.getD id false then
      { acc with connected := acc.connected.set id false,
                 events := acc.events ++ [(id, Event.Disconnected)] }
    else acc
  | QueryResult.OtherError => acc

/-- One iteration of the per-slot polling for-loop (gamepad.rs lines 149 to
168): the slot is queried iff its connected flag is set or the tick counter
is a multiple of ITERATIONS_TO_CHECK_IF_CONNECTED. -/
def poll_slot (counter : ℕ) (query : ℕ → QueryResult) (acc : PollResult) (id : ℕ) : PollResult :=
  if acc.connected.getD id false || decide (counter % ITERATIONS_TO_CHECK_IF_CONNECTED = 0) then
    poll_slot_query (query id) { acc with queried := acc.queried ++ [id] } id
  else acc

/-- The whole polling section of one tick, slots 0 to 3 in order
(gamepad.rs line 149). -/
def poll_all (counter : ℕ) (query : ℕ → QueryResult) (connected : List Bool) (prev : XState) :
    PollResult :=
  List.foldl (poll_slot counter query)
    { prev_state := prev, connected := connected, events := [], queried := [] } [0, 1, 2, 3]

/-- Modelled from the spec: the replay parameters (total length and
inter-repeat delay, both u16 milliseconds) of an EffectData; the ff module
of gilrs that declares EffectData is not under src.  Spec section 3,
Effect: the effect description holds motor intensities, total length and
repeat delay. -/
structure Replay where
  length : ℕ
  delay : ℕ
deriving DecidableEq

/-- Modelled from the spec: the effect kind.  Only strong and weak rumble
intensities exist in this design (spec section 1 non-goals: no custom
waveforms beyond strong and weak motor intensities); the source matches on
EffectType Rumble in play_effect (gamepad.rs lines 115 to 118). -/
inductive EffectType where
  | Rumble (strong : ℕ) (weak : ℕ)
deriving DecidableEq

/-- Modelled from the spec: the declarative effect description consumed by
the scheduler (the ff module of gilrs is not under src); kind plus replay
parameters, the two pieces the scheduler reads (gamepad.rs lines 103, 115,
195, 203, 209). -/
structure EffectData where
  kind : EffectType
  replay : Replay
deriving DecidableEq

/-- Translation of the worker-local Effect record (gamepad.rs lines 93 to
98).  The source field named repeat is renamed repeats because repeat is a
reserved word in Lean; time is the phase-start Instant, modelled as a
nanosecond timestamp. -/
structure Effect where
  data : EffectData
  repeats : ℕ
  waiting : Bool
  time : ℕ
deriving DecidableEq

/-- Hardware commands issued through XInputSetState (gamepad.rs lines 120
to 127): left and right motor speeds for a slot. -/
inductive HwCmd where
  | SetVibration (id : ℕ) (left : ℕ) (right : ℕ)
deriving DecidableEq

/-- Panics the worker thread can hit; stop_effect is unimplemented in the
source (gamepad.rs lines 130 to 132). -/
inductive PanicKind where
  | stopEffectUnimplemented
deriving DecidableEq

/-- Translation of Effect play_effect (gamepad.rs lines 114 to 128): the
weak intensity goes to the left motor and the strong intensity to the right
motor. -/
def Effect.play_effect (e : Effect) (id : ℕ) : HwCmd :=
  match e.data.kind with
  | EffectType.Rumble strong weak => HwCmd.SetVibration id weak strong

/-- Translation of Effect play (gamepad.rs lines 101 to 108): repeat is set
to n saturating-add 1 (u16), then either the waiting flag is set (nonzero
delay) or a play command is issued at once. -/
def Effect.play (e : Effect) (n : ℕ) (id : ℕ) : Effect × List HwCmd :=
  let e2 : Effect := { e with repeats := min (n + 1) 65535 }
  if e2.data.replay.delay ≠ 0 then ({ e2 with waiting := true }, [])
  else (e2, [Effect.play_effect e2 id])

/-- Translation of Effect stop (gamepad.rs lines 110 to 112). -/
def Effect.stop (e : Effect) : Effect := { e with repeats := 0 }

/-- Translation of the From EffectData impl (gamepad.rs lines 135 to 144):
a fresh effect with repeat 0, not waiting, phase start now. -/
def effect_from (d : EffectData) (now : ℕ) : Effect :=
  { data := d, repeats := 0, waiting := false, time := now }

/-- Translation of the local fn ms (gamepad.rs lines 180 to 182) on a
duration given in nanoseconds: whole seconds cast to u16 (wrapping) plus
the truncated millisecond part of the subsecond nanoseconds, the u16 sum
wrapping as in release-mode Rust.  Note the source adds raw seconds, not
seconds times 1000. -/
def ms (nanos : ℕ) : ℕ :=
  ((nanos / 1000000000) % 65536 + (nanos % 1000000000) / 1000000) % 65536

/-- Result of running the timing pass on one effect slot. -/
inductive EffOut where
  | panicked (k : PanicKind)
  | normal (e : Effect) (cmds : List HwCmd)
deriving DecidableEq

/-- Translation of the per-effect body of the scheduler timing pass
(gamepad.rs lines 184 to 213), for one slot id at wall-clock time now
(nanoseconds).  The u16 sum length + delay wraps as in release-mode Rust.
Every call of stop_effect is a panic because stop_effect is unimplemented
(lines 130 to 132). -/
def effect_tick (e : Effect) (id : ℕ) (now : ℕ) : EffOut :=
  let dur := ms (now - e.time)
  if e.repeats = 0 then EffOut.normal e []
  else if (e.data.replay.length + e.data.replay.delay) % 65536 > dur then
    let e2 : Effect := { e with repeats := e.repeats - 1 }
    if e2.repeats = 0 then EffOut.panicked PanicKind.stopEffectUnimplemented
    else if e2.data.replay.delay ≠ 0 then EffOut.panicked PanicKind.stopEffectUnimplemented
    else EffOut.normal { e2 with time := now } []
  else if decide (e.data.replay.delay > dur) && e.waiting then
    EffOut.normal { e with waiting := false } [Effect.play_effect e id]
  else EffOut.normal e []

/-- Result of the whole timing pass over the effects array. -/
inductive EffectsOut where
  | panicked (k : PanicKind)
  | normal (effects : List (Option Effect)) (cmds : List HwCmd)
deriving DecidableEq

/-- The scheduler timing pass over all effect slots in order (gamepad.rs
line 184, effects zipped with ids from 0); a panic aborts the pass. -/
def effects_pass : List (Option Effect) → ℕ → ℕ → EffectsOut
  | [], _, _ => EffectsOut.normal [] []
  | Option.none :: rest, id, now =>
    match effects_pass rest (id + 1) now with
    | EffectsOut.panicked k => EffectsOut.panicked k
    | EffectsOut.normal es cmds => EffectsOut.normal (Option.none :: es) cmds
  | Option.some e :: rest, id, now =>
    match effect_tick e id now with
    | EffOut.panicked k => EffectsOut.panicked k
    | EffOut.normal e2 cmds =>
      match effects_pass rest (id + 1) now with
      | EffectsOut.panicked k => EffectsOut.panicked k
      | EffectsOut.normal es cmds2 => EffectsOut.normal (Option.some e2 :: es) (cmds ++ cmds2)

/-- Force-feedback command kinds of FfMessageType (ff module of the windows
platform backend; the four variants consumed at gamepad.rs lines 172 to
177). -/
inductive FfMessageType where
  | Create (d : EffectData)
  | Play (n : ℕ)
  | Stop
  | Drop
deriving DecidableEq

/-- A force-feedback message: target slot id plus kind (consumed at
gamepad.rs lines 171 to 178). -/
structure FfMessage where
  id : ℕ
  kind : FfMessageType
deriving DecidableEq

/-- Handling of one drained force-feedback message (gamepad.rs lines 172 to
177).  Play and Stop on an empty slot are no-ops (the as_mut map). -/
def drain_step (now : ℕ) (acc : List (Option Effect) × List HwCmd) (m : FfMessage) :
    List (Option Effect) × List HwCmd :=
  match m.kind with
  | FfMessageType.Create d => (acc.1.set m.id (Option.some (effect_from d now)), acc.2)
  | FfMessageType.Play n =>
    match acc.1.getD m.id Option.none with
    | Option.some e =>
      let pr := Effect.play e n m.id
      (acc.1.set m.id (Option.some pr.1), acc.2 ++ pr.2)
    | Option.none => acc
  | FfMessageType.Stop =>
    match acc.1.getD m.id Option.none with
    | Option.some e => (acc.1.set m.id (Option.some (Effect.stop e)), acc.2)
    | Option.none => acc
  | FfMessageType.Drop => (acc.1.set m.id Option.none, acc.2)

/-- The while try_recv drain loop (gamepad.rs lines 171 to 178) applied to
the list of messages pending on the channel this tick. -/
def drain_all (effects : List (Option Effect)) (now : ℕ) (msgs : List FfMessage) :
    List (Option Effect) × List HwCmd :=
  List.foldl (drain_step now) (effects, []) msgs

/-- The worker-thread state carried from one tick of the infinite loop to
the next (gamepad.rs lines 88 to 91 and 146): the single shared previous
snapshot, the per-slot connected flags, the u64 tick counter and the
per-slot effect records. -/
structure LoopState where
  prev_state : XState
  connected : List Bool
  counter : ℕ
  effects : List (Option Effect)
deriving DecidableEq

/-- Result of one tick of the worker loop: either a panic that kills the
thread, or the next state plus the events and hardware commands produced. -/
inductive TickOut where
  | panicked (k : PanicKind)
  | normal (st : LoopState) (events : List (ℕ × Event)) (cmds : List HwCmd)
deriving DecidableEq

/-- One iteration of the infinite worker loop (gamepad.rs lines 148 to
217): poll all slots, drain the force-feedback channel, run the scheduler
timing pass, then increment the wrapping u64 counter.  query gives the
XInputGetState outcome per slot this tick, msgs the pending channel
messages, now the wall clock in nanoseconds. -/
def tick (st : LoopState) (query : ℕ → QueryResult) (msgs : List FfMessage) (now : ℕ) : TickOut :=
  let pr := poll_all st.counter query st.connected st.prev_state
  let dr := drain_all st.effects now msgs
  match effects_pass dr.1 0 now with
  | EffectsOut.panicked k => TickOut.panicked k
  | EffectsOut.normal effects2 cmds2 =>
    TickOut.normal
      { prev_state := pr.prev_state, connected := pr.connected,
        counter := (st.counter + 1) % 18446744073709551616, effects := effects2 }
      pr.events (dr.2 ++ cmds2)

/-- Connection status of a slot (gamepad module of gilrs, not under src;
the three states named by the spec, section 3). -/
inductive Status where
  | Connected
  | Disconnected
  | NotObserved
deriving DecidableEq

/-- Per-axis deadzone parameters filled by deadzones (gamepad.rs lines 506
to 513); the remaining fields of the external Deadzones struct come from
Default and are not read by this backend. -/
structure Deadzones where
  right_stick : ℚ
  left_stick : ℚ
  left_trigger2 : ℚ
deriving DecidableEq

/-- Translation of deadzones (gamepad.rs lines 506 to 513) with the winapi
constants XINPUT_GAMEPAD_RIGHT_THUMB_DEADZONE = 8689,
XINPUT_GAMEPAD_LEFT_THUMB_DEADZONE = 7849 and
XINPUT_GAMEPAD_TRIGGER_THRESHOLD = 30. -/
def deadzones : Deadzones :=
  { right_stick := (8689 : ℚ) / 65534,
    left_stick := (7849 : ℚ) / 65534,
    left_trigger2 := (30 : ℚ) / 255 }

/-- Translation of the platform Gamepad struct (gamepad.rs lines 389 to
395).  The Uuid is modelled as a natural number (nil = 0); the SyncSender
channel endpoint is modelled by its presence, which is all this backend
ever inspects before use. -/
structure Gamepad where
  name : String
  uuid : ℕ
  id : ℕ
  ff_sender : Option Unit
deriving DecidableEq

/-- Translation of Gamepad none (gamepad.rs lines 398 to 405): empty name,
nil uuid, id u32 MAX, no force-feedback sender. -/
def Gamepad.none : Gamepad :=
  { name := (r""), uuid := 0, id := U32_MAX, ff_sender := Option.none }

/-- Modelled from the spec: the cross-platform slot wrapper, gilrs
gamepad::Gamepad, built by from_inner_status (the gamepad module is not
under src).  Per spec sections 3 and 4.1 a slot view holds the platform
gamepad, a connection status and the deadzone profile. -/
structure SlotView where
  inner : Gamepad
  status : Status
  dz : Deadzones
deriving DecidableEq

/-- Modelled from the spec: gamepad::Gamepad::from_inner_status as used at
gamepad.rs lines 60 to 62 and 503: packs inner gamepad, status and
deadzones. -/
def from_inner_status (g : Gamepad) (s : Status) (d : Deadzones) : SlotView :=
  ⟨g, s, d⟩

/-- Translation of gamepad_new (gamepad.rs lines 486 to 504).  The initial
XInputGetState probe is abstracted by initConnected: status is Connected
when the probe succeeds, NotObserved otherwise.  The ff_sender clone passed
in is present. -/
def gamepad_new (id : ℕ) (initConnected : Bool) : SlotView :=
  from_inner_status
    { name := (r"XInput Controller ") ++ Nat.repr (id + 1),
      uuid := 0, id := id, ff_sender := Option.some () }
    (if initConnected then Status.Connected else Status.NotObserved)
    deadzones

/-- Translation of the Gilrs struct (gamepad.rs lines 36 to 41); the event
receiver channel is not part of the state modelled here. -/
structure Gilrs where
  gamepads : List SlotView
  not_observed : SlotView
deriving DecidableEq

/-- Translation of Gilrs new (gamepad.rs lines 44 to 64): four slots built
by gamepad_new plus the sentinel not_observed slot built from Gamepad none
with status NotObserved.  initConnected abstracts the initial per-slot
XInputGetState probes. -/
def Gilrs.new (initConnected : ℕ → Bool) : Gilrs :=
  { gamepads := [gamepad_new 0 (initConnected 0), gamepad_new 1 (initConnected 1),
                 gamepad_new 2 (initConnected 2), gamepad_new 3 (initConnected 3)],
    not_observed := from_inner_status Gamepad.none Status.NotObserved deadzones }

/-- Translation of Gilrs gamepad (gamepad.rs lines 74 to 76): the slot at
id when in range, the sentinel otherwise (get unwrap_or). -/
def Gilrs.gamepad (s : Gilrs) (id : ℕ) : SlotView :=
  (s.gamepads[id]?).getD s.not_observed

/-- Translation of Gilrs gamepad_mut (gamepad.rs lines 78 to 80): same
lookup as gamepad, on the mutable borrow (get_mut unwrap_or). -/
def Gilrs.gamepad_mut (s : Gilrs) (id : ℕ) : SlotView :=
  (s.gamepads[id]?).getD s.not_observed

/-- Translation of Gilrs last_gamepad_hint (gamepad.rs lines 82 to 84). -/
def Gilrs.last_gamepad_hint (s : Gilrs) : ℕ :=
  s.gamepads.length

/-- The force-feedback error type variant returned by this backend (ff
module of gilrs, not under src; the variant used at gamepad.rs line 463). -/
inductive FfError where
  | FfNotSupported
deriving DecidableEq

/-- Outcome of Gamepad set_ff_gain, the Result of the source. -/
inductive GainOutcome where
  | success
  | failure (e : FfError)
deriving DecidableEq

/-- Translation of Gamepad is_ff_supported (gamepad.rs lines 458 to 460). -/
def Gamepad.is_ff_supported (g : Gamepad) : Bool := true

/-- Translation of Gamepad max_ff_effects (gamepad.rs lines 454 to 456). -/
def Gamepad.max_ff_effects (g : Gamepad) : ℕ := 1

/-- Translation of Gamepad set_ff_gain (gamepad.rs lines 462 to 464): the
body is unconditionally Err FfNotSupported. -/
def Gamepad.set_ff_gain (g : Gamepad) (gain : ℕ) : GainOutcome :=
  GainOutcome.failure FfError.FfNotSupported

/-- Outcome of calling the Gamepad ff_sender accessor: the sender, or the
panic of the expect call. -/
inductive FfSenderResult where
  | panicked
  | sender (s : Unit)
deriving DecidableEq

/-- Translation of Gamepad ff_sender (gamepad.rs lines 466 to 470): expect
on the optional sender, panicking when it is absent. -/
def Gamepad.ff_sender_get (g : Gamepad) : FfSenderResult :=
  match g.ff_sender with
  | Option.some s => FfSenderResult.sender s
  | Option.none => FfSenderResult.panicked

/- Statement vocabulary for the claims about compare_state: the canonical
event order and the single-axis-difference predicates. -/

/-- Position of a button in the canonical button order of the spec (section
4.3): dpad up, down, left, right, start, select, left thumb, right thumb,
left shoulder, right shoulder, south, east, west, north. -/
def canonButtonIdx : Button → ℕ
  | Button.DPadUp => 0
  | Button.DPadDown => 1
  | Button.DPadLeft => 2
  | Button.DPadRight => 3
  | Button.Start => 4
  | Button.Select => 5
  | Button.LeftThumb => 6
  | Button.RightThumb => 7
  | Button.LeftTrigger => 8
  | Button.RightTrigger => 9
  | Button.South => 10
  | Button.East => 11
  | Button.West => 12
  | Button.North => 13

/-- Position of an event in the canonical order of the spec (section 4.3):
axes first, in the order left trigger, right trigger, left stick x, left
stick y, right stick x, right stick y, then the buttons in canonical
order.  Connection events do not occur in a diff and sort last. -/
def canonIdx : Event → ℕ
  | Event.AxisChanged Axis.LeftTrigger2 _ _ => 0
  | Event.AxisChanged Axis.RightTrigger2 _ _ => 1
  | Event.AxisChanged Axis.LeftStickX _ _ => 2
  | Event.AxisChanged Axis.LeftStickY _ _ => 3
  | Event.AxisChanged Axis.RightStickX _ _ => 4
  | Event.AxisChanged Axis.RightStickY _ _ => 5
  | Event.ButtonPressed b _ => 6 + canonButtonIdx b
  | Event.ButtonReleased b _ => 6 + canonButtonIdx b
  | Event.Connected => 20
  | Event.Disconnected => 21

/-- The six raw axis fields of an XINPUT_GAMEPAD snapshot. -/
inductive AxisField where
  | LT
  | RT
  | LX
  | LY
  | RX
  | RY
deriving DecidableEq

/-- Two snapshots differ in exactly the raw axis field f: that field
differs, the five other axis fields agree, and the button mask agrees. -/
@[reducible]
def diffExactlyOne (f : AxisField) (g pg : XGamepad) : Prop :=
  g.wButtons = pg.wButtons ∧
  match f with
  | AxisField.LT =>
    g.bLeftTrigger ≠ pg.bLeftTrigger ∧ g.bRightTrigger = pg.bRightTrigger ∧
    g.sThumbLX = pg.sThumbLX ∧ g.sThumbLY = pg.sThumbLY ∧
    g.sThumbRX = pg.sThumbRX ∧ g.sThumbRY = pg.sThumbRY
  | AxisField.RT =>
    g.bRightTrigger ≠ pg.bRightTrigger ∧ g.bLeftTrigger = pg.bLeftTrigger ∧
    g.sThumbLX = pg.sThumbLX ∧ g.sThumbLY = pg.sThumbLY ∧
    g.sThumbRX = pg.sThumbRX ∧ g.sThumbRY = pg.sThumbRY
  | AxisField.LX =>
    g.sThumbLX ≠ pg.sThumbLX ∧ g.bLeftTrigger = pg.bLeftTrigger ∧
    g.bRightTrigger = pg.bRightTrigger ∧ g.sThumbLY = pg.sThumbLY ∧
    g.sThumbRX = pg.sThumbRX ∧ g.sThumbRY = pg.sThumbRY
  | AxisField.LY =>
    g.sThumbLY ≠ pg.sThumbLY ∧ g.bLeftTrigger = pg.bLeftTrigger ∧
    g.bRightTrigger = pg.bRightTrigger ∧ g.sThumbLX = pg.sThumbLX ∧
    g.sThumbRX = pg.sThumbRX ∧ g.sThumbRY = pg.sThumbRY
  | AxisField.RX =>
    g.sThumbRX ≠ pg.sThumbRX ∧ g.bLeftTrigger = pg.bLeftTrigger ∧
    g.bRightTrigger = pg.bRightTrigger ∧ g.sThumbLX = pg.sThumbLX ∧
    g.sThumbLY = pg.sThumbLY ∧ g.sThumbRY = pg.sThumbRY
  | AxisField.RY =>
    g.sThumbRY ≠ pg.sThumbRY ∧ g.bLeftTrigger = pg.bLeftTrigger ∧
    g.bRightTrigger = pg.bRightTrigger ∧ g.sThumbLX = pg.sThumbLX ∧
    g.sThumbLY = pg.sThumbLY ∧ g.sThumbRX = pg.sThumbRX

/-- The normalized value compare_state computes for a raw axis field of a
snapshot: the raw value divided by the maximum magnitude of its width (255
for the u8 triggers, 32767 for the i16 sticks). -/
def axisValue (f : AxisField) (g : XGamepad) : ℚ :=
  match f with
  | AxisField.LT => (g.bLeftTrigger : ℚ) / (U8_MAX : ℚ)
  | AxisField.RT => (g.bRightTrigger : ℚ) / (U8_MAX : ℚ)
  | AxisField.LX => (g.sThumbLX : ℚ) / (I16_MAX : ℚ)
  | AxisField.LY => (g.sThumbLY : ℚ) / (I16_MAX : ℚ)
  | AxisField.RX => (g.sThumbRX : ℚ) / (I16_MAX : ℚ)
  | AxisField.RY => (g.sThumbRY : ℚ) / (I16_MAX : ℚ)

/-- The AxisChanged event compare_state emits for a change of a given raw
axis field. -/
def axisEvent (f : AxisField) (id : ℕ) (g : XGamepad) : ℕ × Event :=
  match f with
  | AxisField.LT => (id, Event.AxisChanged Axis.LeftTrigger2 (axisValue AxisField.LT g) 4)
  | AxisField.RT => (id, Event.AxisChanged Axis.RightTrigger2 (axisValue AxisField.RT g) 5)
  | AxisField.LX => (id, Event.AxisChanged Axis.LeftStickX (axisValue AxisField.LX g) 0)
  | AxisField.LY => (id, Event.AxisChanged Axis.LeftStickY (axisValue AxisField.LY g) 1)
  | AxisField.RX => (id, Event.AxisChanged Axis.RightStickX (axisValue AxisField.RX g) 2)
  | AxisField.RY => (id, Event.AxisChanged Axis.RightStickY (axisValue AxisField.RY g) 3)

/-- The lower bound the emitted normalized value actually satisfies: 0 for
the unsigned triggers, and for the signed sticks the value of the minimum
raw i16, which is minus 32768 over 32767, slightly below minus one. -/
def axisLowerBound (f : AxisField) : ℚ :=
  match f with
  | AxisField.LT => 0
  | AxisField.RT => 0
  | AxisField.LX => (-32768 : ℚ) / 32767
  | AxisField.LY => (-32768 : ℚ) / 32767
  | AxisField.RX => (-32768 : ℚ) / 32767
  | AxisField.RY => (-32768 : ℚ) / 32767

/-- Range well-formedness of a raw snapshot: the machine-width bounds of
its fields (u16 buttons, u8 triggers, i16 sticks). -/
@[reducible]
def wfGamepad (g : XGamepad) : Prop :=
  g.wButtons < 65536 ∧ g.bLeftTrigger < 256 ∧ g.bRightTrigger < 256 ∧
  -32768 ≤ g.sThumbLX ∧ g.sThumbLX ≤ 32767 ∧
  -32768 ≤ g.sThumbLY ∧ g.sThumbLY ≤ 32767 ∧
  -32768 ≤ g.sThumbRX ∧ g.sThumbRX ≤ 32767 ∧
  -32768 ≤ g.sThumbRY ∧ g.sThumbRY ≤ 32767

/- Helper lemmas shared by the claim theorems below. -/

theorem getD_set_ne (l : List Bool) (i j : ℕ) (b : Bool) (h : j ≠ i) :
    (l.set i b).getD j false = l.getD j false := by
  induction l generalizing i j with
  | nil => rfl
  | cons a t ih =>
    cases i with
    | zero =>
      cases j with
      | zero => exact absurd rfl h
      | succ j2 => rfl
    | succ i2 =>
      cases j with
      | zero => rfl
      | succ j2 => simpa using ih i2 j2 (by omega)

theorem poll_slot_query_queried (q : QueryResult) (acc : PollResult) (id : ℕ) :
    (poll_slot_query q acc id).queried = acc.queried := by
  cases q with
  | Success st =>
    simp only [poll_slot_query]
    split <;> split <;> rfl
  | NotConnected =>
    simp only [poll_slot_query]
    split <;> rfl
  | OtherError => rfl

theorem poll_slot_query_connected_ne (q : QueryResult) (acc : PollResult) (id j : ℕ)
    (h : j ≠ id) :
    (poll_slot_query q acc id).connected.getD j false = acc.connected.getD j false := by
  cases q with
  | Success st =>
    simp only [poll_slot_query]
    split <;> split <;> first | rfl | exact getD_set_ne _ _ _ _ h
  | NotConnected =>
    simp only [poll_slot_query]
    split <;> first | rfl | exact getD_set_ne _ _ _ _ h
  | OtherError => rfl

theorem poll_slot_queried (c : ℕ) (query : ℕ → QueryResult) (acc : PollResult) (id : ℕ) :
    (poll_slot c query acc id).queried =
      acc.queried ++
        (if acc.connected.getD id false || decide (c % ITERATIONS_TO_CHECK_IF_CONNECTED = 0)
         then [id] else []) := by
  simp only [poll_slot]
  split
  · rw [poll_slot_query_queried]
  · simp

theorem poll_slot_connected_ne (c : ℕ) (query : ℕ → QueryResult) (acc : PollResult) (id j : ℕ)
    (h : j ≠ id) :
    (poll_slot c query acc id).connected.getD j false = acc.connected.getD j false := by
  simp only [poll_slot]
  split
  · rw [poll_slot_query_connected_ne _ _ _ _ h]
  · rfl

theorem mem_ite_singleton {a b : ℕ} {c : Prop} [Decidable c] :
    a ∈ (if c then [b] else ([] : List ℕ)) ↔ (c ∧ a = b) := by
  split <;> simp_all

theorem emit_mem {α : Type} (segs : List (Bool × α)) (x : α) (hx : x ∈ emit segs) :
    ∃ p ∈ segs, x = p.2 := by
  induction segs with
  | nil => simp [emit] at hx
  | cons p rest ih =>
    rcases p with ⟨c, y⟩
    simp only [emit] at hx
    rcases List.mem_append.mp hx with h | h
    · cases c
      · simp at h
      · simp at h
        exact ⟨(true, y), by simp, by simp [h]⟩
    · obtain ⟨q, hq, rfl⟩ := ih h
      exact ⟨q, by simp [hq], rfl⟩

theorem emit_pairwise {α : Type} (f : α → ℕ) (segs : List (Bool × α))
    (h : (segs.map (fun p => f p.2)).Pairwise (fun a b => a < b)) :
    (emit segs).Pairwise (fun a b => f a < f b) := by
  induction segs with
  | nil => exact List.Pairwise.nil
  | cons p rest ih =>
    rcases p with ⟨c, y⟩
    simp only [List.map_cons, List.pairwise_cons] at h
    obtain ⟨h1, h2⟩ := h
    have hrest := ih h2
    simp only [emit]
    cases c
    · simpa using hrest
    · simp only [if_pos, List.singleton_append]
      refine List.Pairwise.cons ?_ hrest
      intro b hb
      obtain ⟨q, hq, rfl⟩ := emit_mem rest b hb
      exact h1 _ (List.mem_map_of_mem _ hq)

theorem canonIdx_ite (c : Prop) [Decidable c] (b : Button) (m m2 : ℕ) :
    canonIdx (if c then Event.ButtonPressed b m else Event.ButtonReleased b m2) =
      6 + canonButtonIdx b := by
  split <;> rfl

/- Claim theorems. -/

/-- C1: the claim states that each slot has its own per-slot previous
snapshot and that the events emitted for slot i never depend on another
slot stored snapshot.  The source keeps ONE shared prev_state for all four
slots, so this theorem exhibits the contamination at a concrete input: the
tick counter is 1, slots 0 and 1 are connected, the previous snapshot is
zeroed; slot 0 reads packet 1 with left trigger 100, slot 1 reads packet 2
with an all-zero gamepad.  Slot 1 never changed (its reads are all zero),
yet the loop emits a left-trigger AxisChanged event for slot 1, produced by
diffing slot 1 state against the stored snapshot of slot 0. -/
theorem c1_cross_slot_contamination :
    (poll_all 1
      (fun id => if id = 0 then QueryResult.Success ⟨1, ⟨0, 100, 0, 0, 0, 0, 0⟩⟩
        else if id = 1 then QueryResult.Success ⟨2, XGamepad.zeroed⟩
        else QueryResult.OtherError)
      [true, true, false, false] XState.zeroed).events =
    [(0, Event.AxisChanged Axis.LeftTrigger2 ((100 : ℚ) / 255) 4),
     (1, Event.AxisChanged Axis.LeftTrigger2 0 4)] := by
  norm_num [poll_all, poll_slot, poll_slot_query, compare_state, diff_segments, emit,
    is_mask_eq, XState.zeroed, XGamepad.zeroed, ITERATIONS_TO_CHECK_IF_CONNECTED,
    U8_MAX, I16_MAX, XINPUT_GAMEPAD_DPAD_UP, XINPUT_GAMEPAD_DPAD_DOWN,
    XINPUT_GAMEPAD_DPAD_LEFT, XINPUT_GAMEPAD_DPAD_RIGHT, XINPUT_GAMEPAD_START,
    XINPUT_GAMEPAD_BACK, XINPUT_GAMEPAD_LEFT_THUMB, XINPUT_GAMEPAD_RIGHT_THUMB,
    XINPUT_GAMEPAD_LEFT_SHOULDER, XINPUT_GAMEPAD_RIGHT_SHOULDER, XINPUT_GAMEPAD_A,
    XINPUT_GAMEPAD_B, XINPUT_GAMEPAD_X, XINPUT_GAMEPAD_Y]

/-- C2: the claim states that one tick of the worker loop never panics in
any reachable state.  This theorem evaluates a tick at a reachable state
(an effect created and played with zero delay, one repetition left, 10 ms
elapsed): the timing pass decrements the repeat counter to zero and calls
stop_effect, which is unimplemented in the source, so the tick panics. -/
theorem c2_tick_panics :
    tick ⟨XState.zeroed, [false, false, false, false], 1,
          [Option.some ⟨⟨EffectType.Rumble 1000 2000, ⟨100, 0⟩⟩, 1, false, 0⟩,
           Option.none, Option.none, Option.none]⟩
      (fun _ => QueryResult.OtherError) [] 10000000 =
      TickOut.panicked PanicKind.stopEffectUnimplemented := by decide

/-- C3: Create then Play 0 on a zero-delay effect (length 100 ms) for slot
0 issues exactly one hardware play command with the weak intensity on the
left motor, leaving the repeat counter at 1 as the claim says.  But at the
next tick, only 10 ms later (less than one length window), the timing pass
already decrements the counter to 0 and the stop call panics instead of
stopping cleanly: the counter reaches 0 BEFORE one length window has
elapsed, and no clean transition to Idle happens. -/
theorem c3_zero_delay_play :
    drain_all [Option.none, Option.none, Option.none, Option.none] 0
      [⟨0, FfMessageType.Create ⟨EffectType.Rumble 1000 2000, ⟨100, 0⟩⟩⟩,
       ⟨0, FfMessageType.Play 0⟩] =
      ([Option.some ⟨⟨EffectType.Rumble 1000 2000, ⟨100, 0⟩⟩, 1, false, 0⟩,
        Option.none, Option.none, Option.none],
       [HwCmd.SetVibration 0 2000 1000]) ∧
    ms 10000000 < 100 ∧
    effect_tick ⟨⟨EffectType.Rumble 1000 2000, ⟨100, 0⟩⟩, 1, false, 0⟩ 0 10000000 =
      EffOut.panicked PanicKind.stopEffectUnimplemented :=
  ⟨by decide, by decide, by decide⟩

/-- C4: the claim states that a WaitingForDelay effect gets its waiting
flag cleared and a play command issued exactly when the elapsed time
exceeds the delay window.  Concrete state: length 10 ms, delay 10 ms,
repeat counter 2, waiting, 25 ms elapsed (well past the delay window).
The tick leaves the effect unchanged and issues no command: the resume
branch of the source requires delay greater than elapsed AND elapsed at
least length plus delay, which is unsatisfiable, so the flag is never
cleared. -/
theorem c4_waiting_never_resumed :
    ms 25000000 = 25 ∧
    effect_tick ⟨⟨EffectType.Rumble 1000 2000, ⟨10, 10⟩⟩, 2, true, 0⟩ 0 25000000 =
      EffOut.normal ⟨⟨EffectType.Rumble 1000 2000, ⟨10, 10⟩⟩, 2, true, 0⟩ [] :=
  ⟨by decide, by decide⟩

/-- C5 counterexample: the claim states the normalized stick value always
lies in the closed interval from minus one to one, for every raw value
including the minimum i16.  At the minimum raw value the emitted value is
minus 32768 over 32767, which is strictly below minus one, while the pair
of snapshots differs in exactly the left stick x field and exactly one
axis event and no button event is emitted. -/
theorem c5_counterexample :
    diffExactlyOne AxisField.LX ⟨0, 0, 0, -32768, 0, 0, 0⟩ XGamepad.zeroed ∧
    compare_state 0 ⟨0, 0, 0, -32768, 0, 0, 0⟩ XGamepad.zeroed =
      [(0, Event.AxisChanged Axis.LeftStickX ((-32768 : ℚ) / 32767) 0)] ∧
    ((-32768 : ℚ) / 32767) < -1 := by
  refine ⟨by decide, ?_, by norm_num⟩
  norm_num [compare_state, diff_segments, emit, is_mask_eq, XGamepad.zeroed, U8_MAX, I16_MAX,
    XINPUT_GAMEPAD_DPAD_UP, XINPUT_GAMEPAD_DPAD_DOWN,
    XINPUT_GAMEPAD_DPAD_LEFT, XINPUT_GAMEPAD_DPAD_RIGHT, XINPUT_GAMEPAD_START,
    XINPUT_GAMEPAD_BACK, XINPUT_GAMEPAD_LEFT_THUMB, XINPUT_GAMEPAD_RIGHT_THUMB,
    XINPUT_GAMEPAD_LEFT_SHOULDER, XINPUT_GAMEPAD_RIGHT_SHOULDER, XINPUT_GAMEPAD_A,
    XINPUT_GAMEPAD_B, XINPUT_GAMEPAD_X, XINPUT_GAMEPAD_Y]

/-- C5 amended: for every pair of in-range raw snapshots differing in
exactly one axis field, compare_state emits exactly one AxisChanged event
for that axis (and no button events), with value equal to the raw value
divided by the maximum representable magnitude for that axis width; the
value lies in the interval from 0 to 1 for the triggers and from minus
32768 over 32767 (slightly below minus one, attained at the minimum i16)
to 1 for the sticks. -/
theorem c5_single_axis_diff (f : AxisField) (id : ℕ) (g pg : XGamepad)
    (hw : wfGamepad g) (hd : diffExactlyOne f g pg) :
    compare_state id g pg = [axisEvent f id g] ∧
    axisLowerBound f ≤ axisValue f g ∧ axisValue f g ≤ 1 := by
  obtain ⟨hb, hf⟩ := hd
  obtain ⟨hw1, hw2, hw3, hw4, hw5, hw6, hw7, hw8, hw9, hw10, hw11⟩ := hw
  cases f with
  | LT =>
    obtain ⟨hne, h1, h2, h3, h4, h5⟩ := hf
    refine ⟨?_, ?_, ?_⟩
    · simp [compare_state, diff_segments, emit, is_mask_eq, hb, hne, h1, h2, h3, h4, h5,
        axisEvent, axisValue]
    · simp only [axisLowerBound, axisValue, U8_MAX]
      positivity
    · simp only [axisValue, U8_MAX]
      rw [div_le_one (by norm_num)]
      exact_mod_cast Nat.lt_succ_iff.mp hw2
  | RT =>
    obtain ⟨hne, h1, h2, h3, h4, h5⟩ := hf
    refine ⟨?_, ?_, ?_⟩
    · simp [compare_state, diff_segments, emit, is_mask_eq, hb, hne, h1, h2, h3, h4, h5,
        axisEvent, axisValue]
    · simp only [axisLowerBound, axisValue, U8_MAX]
      positivity
    · simp only [axisValue, U8_MAX]
      rw [div_le_one (by norm_num)]
      exact_mod_cast Nat.lt_succ_iff.mp hw3
  | LX =>
    obtain ⟨hne, h1, h2, h3, h4, h5⟩ := hf
    refine ⟨?_, ?_, ?_⟩
    · simp [compare_state, diff_segments, emit, is_mask_eq, hb, hne, h1, h2, h3, h4, h5,
        axisEvent, axisValue]
    · simp only [axisLowerBound, axisValue, I16_MAX]
      push_cast
      rw [div_eq_mul_inv, div_eq_mul_inv]
      refine mul_le_mul_of_nonneg_right ?_ (by norm_num)
      exact_mod_cast hw4
    · simp only [axisValue, I16_MAX]
      push_cast
      rw [div_le_one (by norm_num)]
      exact_mod_cast hw5
  | LY =>
    obtain ⟨hne, h1, h2, h3, h4, h5⟩ := hf
    refine ⟨?_, ?_, ?_⟩
    · simp [compare_state, diff_segments, emit, is_mask_eq, hb, hne, h1, h2, h3, h4, h5,
        axisEvent, axisValue]
    · simp only [axisLowerBound, axisValue, I16_MAX]
      push_cast
      rw [div_eq_mul_inv, div_eq_mul_inv]
      refine mul_le_mul_of_nonneg_right ?_ (by norm_num)
      exact_mod_cast hw6
    · simp only [axisValue, I16_MAX]
      push_cast
      rw [div_le_one (by norm_num)]
      exact_mod_cast hw7
  | RX =>
    obtain ⟨hne, h1, h2, h3, h4, h5⟩ := hf
    refine ⟨?_, ?_, ?_⟩
    · simp [compare_state, diff_segments, emit, is_mask_eq, hb, hne, h1, h2, h3, h4, h5,
        axisEvent, axisValue]
    · simp only [axisLowerBound, axisValue, I16_MAX]
      push_cast
      rw [div_eq_mul_inv, div_eq_mul_inv]
      refine mul_le_mul_of_nonneg_right ?_ (by norm_num)
      exact_mod_cast hw8
    · simp only [axisValue, I16_MAX]
      push_cast
      rw [div_le_one (by norm_num)]
      exact_mod_cast hw9
  | RY =>
    obtain ⟨hne, h1, h2, h3, h4, h5⟩ := hf
    refine ⟨?_, ?_, ?_⟩
    · simp [compare_state, diff_segments, emit, is_mask_eq, hb, hne, h1, h2, h3, h4, h5,
        axisEvent, axisValue]
    · simp only [axisLowerBound, axisValue, I16_MAX]
      push_cast
      rw [div_eq_mul_inv, div_eq_mul_inv]
      refine mul_le_mul_of_nonneg_right ?_ (by norm_num)
      exact_mod_cast hw10
    · simp only [axisValue, I16_MAX]
      push_cast
      rw [div_le_one (by norm_num)]
      exact_mod_cast hw11

/-- C5 witness: the amended single-axis-difference theorem applied at a
concrete pair of snapshots differing only in the left stick x field. -/
theorem c5_single_axis_diff_witness :
    wfGamepad ⟨0, 0, 0, 5, 0, 0, 0⟩ ∧
    diffExactlyOne AxisField.LX ⟨0, 0, 0, 5, 0, 0, 0⟩ XGamepad.zeroed ∧
    compare_state 0 ⟨0, 0, 0, 5, 0, 0, 0⟩ XGamepad.zeroed =
      [axisEvent AxisField.LX 0 ⟨0, 0, 0, 5, 0, 0, 0⟩] :=
  ⟨by decide, by decide,
   (c5_single_axis_diff AxisField.LX 0 ⟨0, 0, 0, 5, 0, 0, 0⟩ XGamepad.zeroed
      (by decide) (by decide)).1⟩

/-- C6: out-of-range lookups through gamepad and gamepad_mut return the
shared sentinel slot (empty name, nil identifier, NotObserved status) and
are total (no panic is possible: the source uses get unwrap_or); in-range
lookups return the real slot built by gamepad_new, and last_gamepad_hint
returns the fixed slot count 4. -/
theorem c6_slot_lookup (q : ℕ → Bool) (id : ℕ)
    (h : (Gilrs.new q).last_gamepad_hint ≤ id) :
    Gilrs.gamepad (Gilrs.new q) id = (Gilrs.new q).not_observed ∧
    Gilrs.gamepad_mut (Gilrs.new q) id = (Gilrs.new q).not_observed ∧
    (Gilrs.gamepad (Gilrs.new q) id).inner.name = (r"") ∧
    (Gilrs.gamepad (Gilrs.new q) id).inner.uuid = 0 ∧
    (Gilrs.gamepad (Gilrs.new q) id).status = Status.NotObserved ∧
    (Gilrs.new q).last_gamepad_hint = 4 ∧
    (∀ j, j < 4 → Gilrs.gamepad (Gilrs.new q) j = gamepad_new j (q j) ∧
                  Gilrs.gamepad_mut (Gilrs.new q) j = gamepad_new j (q j)) := by
  have hlen : (Gilrs.new q).gamepads.length = 4 := rfl
  have hlh : (Gilrs.new q).last_gamepad_hint = 4 := rfl
  have hnone : (Gilrs.new q).gamepads[id]? = Option.none := by
    apply List.getElem?_len_le
    omega
  have hg : Gilrs.gamepad (Gilrs.new q) id = (Gilrs.new q).not_observed := by
    simp [Gilrs.gamepad, hnone]
  have hgm : Gilrs.gamepad_mut (Gilrs.new q) id = (Gilrs.new q).not_observed := by
    simp [Gilrs.gamepad_mut, hnone]
  refine ⟨hg, hgm, ?_, ?_, ?_, rfl, ?_⟩
  · rw [hg]
    rfl
  · rw [hg]
    rfl
  · rw [hg]
    rfl
  · intro j hj
    interval_cases j <;> exact ⟨rfl, rfl⟩

/-- C6 witness: the lookup theorem applied at the out-of-range id 7. -/
theorem c6_slot_lookup_witness :
    (Gilrs.new (fun _ => false)).last_gamepad_hint ≤ 7 ∧
    (Gilrs.gamepad (Gilrs.new (fun _ => false)) 7).status = Status.NotObserved :=
  ⟨by decide, (c6_slot_lookup (fun _ => false) 7 (by decide)).2.2.2.2.1⟩

/-- C7: on any tick, slot i has XInputGetState called on it if and only if
i is one of the four slots and either its connected flag was set at the
start of the tick or the tick counter is a multiple of
ITERATIONS_TO_CHECK_IF_CONNECTED (100); in particular a disconnected slot
is never queried on a tick whose counter is not a multiple of 100. -/
theorem c7_throttled_query (counter : ℕ) (query : ℕ → QueryResult) (connected : List Bool)
    (prev : XState) (i : ℕ) :
    i ∈ (poll_all counter query connected prev).queried ↔
      (i < 4 ∧ (connected.getD i false = true ∨
                counter % ITERATIONS_TO_CHECK_IF_CONNECTED = 0)) := by
  have hq : (poll_all counter query connected prev).queried =
      (((if connected.getD 0 false || decide (counter % ITERATIONS_TO_CHECK_IF_CONNECTED = 0)
          then [0] else []) ++
        (if connected.getD 1 false || decide (counter % ITERATIONS_TO_CHECK_IF_CONNECTED = 0)
          then [1] else [])) ++
        (if connected.getD 2 false || decide (counter % ITERATIONS_TO_CHECK_IF_CONNECTED = 0)
          then [2] else [])) ++
        (if connected.getD 3 false || decide (counter % ITERATIONS_TO_CHECK_IF_CONNECTED = 0)
          then [3] else []) := by
    show (poll_slot counter query (poll_slot counter query (poll_slot counter query
      (poll_slot counter query
        { prev_state := prev, connected := connected, events := [], queried := [] } 0) 1) 2)
          3).queried = _
    rw [poll_slot_queried, poll_slot_queried, poll_slot_queried, poll_slot_queried,
        poll_slot_connected_ne _ _ _ _ _ (by omega : (3 : ℕ) ≠ 2),
        poll_slot_connected_ne _ _ _ _ _ (by omega : (3 : ℕ) ≠ 1),
        poll_slot_connected_ne _ _ _ _ _ (by omega : (3 : ℕ) ≠ 0),
        poll_slot_connected_ne _ _ _ _ _ (by omega : (2 : ℕ) ≠ 1),
        poll_slot_connected_ne _ _ _ _ _ (by omega : (2 : ℕ) ≠ 0),
        poll_slot_connected_ne _ _ _ _ _ (by omega : (1 : ℕ) ≠ 0)]
    simp
  rw [hq]
  by_cases hi : i < 4
  · interval_cases i <;>
      simp [mem_ite_singleton, Bool.or_eq_true, decide_eq_true_eq]
  · simp only [List.mem_append, mem_ite_singleton]
    constructor
    · rintro (((⟨-, rfl⟩ | ⟨-, rfl⟩) | ⟨-, rfl⟩) | ⟨-, rfl⟩) <;> omega
    · rintro ⟨h4, -⟩
      exact absurd h4 hi

/-- C8: for every pair of raw snapshots, the event list produced by
compare_state is strictly sorted by the canonical position: all axis
events first in the fixed order left trigger, right trigger, left stick x,
left stick y, right stick x, right stick y, then all button events in the
fixed order dpad up, down, left, right, start, select, left thumb, right
thumb, left shoulder, right shoulder, south, east, west, north; the order
is deterministic because compare_state is a function of the two
snapshots. -/
theorem c8_canonical_event_order (id : ℕ) (g pg : XGamepad) :
    (compare_state id g pg).Pairwise (fun a b => canonIdx a.2 < canonIdx b.2) := by
  have h := emit_pairwise (fun e : ℕ × Event => canonIdx e.2) (diff_segments id g pg) (by
    simp only [diff_segments, List.map_cons, List.map_nil, canonIdx_ite]
    simp only [canonIdx, canonButtonIdx]
    decide)
  simpa [compare_state] using h

/-- C9 counterexample: slot 0 is a real slot with force-feedback hardware
(its sender is present and is_ff_supported reports true), yet set_ff_gain
still returns the FfNotSupported error instead of succeeding, refuting the
claim that the gain call succeeds on slots that support force feedback. -/
theorem c9_counterexample :
    Gamepad.is_ff_supported ((Gilrs.gamepad (Gilrs.new (fun _ => false)) 0).inner) = true ∧
    ((Gilrs.gamepad (Gilrs.new (fun _ => false)) 0).inner).ff_sender = Option.some () ∧
    Gamepad.set_ff_gain ((Gilrs.gamepad (Gilrs.new (fun _ => false)) 0).inner) 100 =
      GainOutcome.failure FfError.FfNotSupported :=
  ⟨rfl, rfl, rfl⟩

/-- C9 amended: set_ff_gain returns the FfNotSupported error synchronously
for every slot and every gain value; it never enqueues a command and never
succeeds, regardless of whether the slot has force-feedback hardware. -/
theorem c9_set_ff_gain_always_not_supported (g : Gamepad) (gain : ℕ) :
    Gamepad.set_ff_gain g gain = GainOutcome.failure FfError.FfNotSupported := rfl

/-- C10: for every gamepad value whose force-feedback sender is absent,
the ff_sender accessor panics (the expect call on the empty optional), and
the sentinel gamepad built by Gamepad none has no sender, so any effect
call routed through the sentinel slot faults. -/
theorem c10_ff_sender_panics (g : Gamepad) (h : g.ff_sender = Option.none) :
    Gamepad.ff_sender_get g = FfSenderResult.panicked ∧
    Gamepad.none.ff_sender = Option.none := by
  constructor
  · simp [Gamepad.ff_sender_get, h]
  · rfl

/-- C10 witness: the panic theorem applied to the sentinel gamepad. -/
theorem c10_ff_sender_panics_witness :
    Gamepad.ff_sender_get Gamepad.none = FfSenderResult.panicked :=
  (c10_ff_sender_panics Gamepad.none rfl).1
